import Mathlib

/-!
Shallow embedding of the Disfuse on-chain ledgers:

* `SocialMedia` (the SocialLedger) — the Solidity contract embedded in
  `src/frontend/src/components/Post.tsx` (struct/mapping declarations and the
  functions createProfile, updateProfile, createPost, likePost, unlikePost,
  addComment, followUser, unfollowUser, getPost, getProfile, hasLiked,
  isFollowing, getTotalPosts).
* `Governance` (the GovernanceLedger) — `src/contracts/contracts/Governance.sol`
  (createProposal, castVote, executeProposal, cancelProposal).

Modelling conventions:
* Ethereum addresses are `Nat`; the zero address `0` plays the role of
  `address(0)` (the Solidity mapping default).  On Ethereum `msg.sender` is
  never the zero address, so reachability quantifies over callers `≠ 0`.
* `uint256` counters are `Nat`.  Solidity 0.8 arithmetic is checked
  (revert on wrap); none of the counters here can wrap on a reachable state
  (that is part of what the counting invariants below establish), so plain
  `Nat` arithmetic is faithful on reachable states.
* Solidity mappings are total functions with the zero-value default, exactly
  like EVM storage; record updates are threaded sequentially in source order.
* Every mutating function is translated as
  `State → Option Err × State`: the second component is the storage as of
  the point where execution stopped.  Each `require` failure is an error
  branch paired with the state at that program point — in this source all
  `require`s precede all storage writes, so each error branch carries the
  entry state, which is what the atomicity theorem certifies.
* `block.timestamp` and `msg.sender` are explicit parameters.
-/

/-- Errors of the `SocialMedia` contract, one per `require` message. -/
inductive SMErr where
  | profileAlreadyExists      -- "Profile already exists"
  | profileDoesNotExist       -- "Profile does not exist" / "Your profile does not exist"
  | profileNotActive          -- "Profile is not active" / "Your profile is not active"
  | targetProfileDoesNotExist -- "Target profile does not exist"
  | targetProfileNotActive    -- "Target profile is not active"
  | postDoesNotExist          -- "Post does not exist"
  | postNotActive             -- "Post is not active"
  | alreadyLiked              -- "Already liked this post"
  | notYetLiked               -- "Haven't liked this post"
  | cannotFollowSelf          -- "Cannot follow yourself"
  | alreadyFollowing          -- "Already following this user"
  | notFollowing              -- "Not following this user"
deriving Repr, DecidableEq

/-- Solidity `struct Post` of the SocialMedia contract. -/
structure SMPost where
  id : Nat
  creator : Nat
  ipfsHash : String
  timestamp : Nat
  likeCount : Nat
  commentCount : Nat
  isActive : Bool
deriving Repr, DecidableEq

/-- Solidity `struct Comment` of the SocialMedia contract. -/
structure SMComment where
  id : Nat
  postId : Nat
  creator : Nat
  content : String
  timestamp : Nat
  isActive : Bool
deriving Repr, DecidableEq

/-- Solidity `struct Profile` of the SocialMedia contract. -/
structure SMProfile where
  user : Nat
  username : String
  bio : String
  profilePictureIpfsHash : String
  followerCount : Nat
  followingCount : Nat
  isActive : Bool
deriving Repr, DecidableEq

/-- The EVM zero value of `Post` (mapping default). -/
def SMPost.zero : SMPost := ⟨0, 0, "", 0, 0, 0, false⟩

/-- The EVM zero value of `Comment` (mapping default). -/
def SMComment.zero : SMComment := ⟨0, 0, 0, "", 0, false⟩

/-- The EVM zero value of `Profile` (mapping default). -/
def SMProfile.zero : SMProfile := ⟨0, "", "", "", 0, 0, false⟩

/-- Storage of the SocialMedia contract: the two `Counters.Counter`s and the
five mappings, each modelled as a total function with the zero default. -/
structure SMState where
  postIds : Nat                      -- `_postIds.current()`
  commentIds : Nat                   -- `_commentIds.current()`
  posts : Nat → SMPost               -- `mapping(uint256 => Post)`
  comments : Nat → SMComment         -- `mapping(uint256 => Comment)`
  profiles : Nat → SMProfile         -- `mapping(address => Profile)`
  postLikes : Nat → Nat → Bool       -- `mapping(address => mapping(uint256 => bool))`
  follows : Nat → Nat → Bool         -- `mapping(address => mapping(address => bool))`

/-- Contract storage right after the constructor runs. -/
def SMState.deployed : SMState :=
  ⟨0, 0, fun _ => SMPost.zero, fun _ => SMComment.zero,
   fun _ => SMProfile.zero, fun _ _ => false, fun _ _ => false⟩

namespace SMState

/-- Solidity `createProfile(_username, _bio, _profilePictureIpfsHash)`. -/
def createProfile (s : SMState) (sender : Nat)
    (username bio pic : String) : Option SMErr × SMState :=
  if (s.profiles sender).user ≠ 0 then (some .profileAlreadyExists, s)
  else
    let profiles := Function.update s.profiles sender
      ⟨sender, username, bio, pic, 0, 0, true⟩
    (none, { s with profiles := profiles })

/-- Solidity `updateProfile(_username, _bio, _profilePictureIpfsHash)`. -/
def updateProfile (s : SMState) (sender : Nat)
    (username bio pic : String) : Option SMErr × SMState :=
  if (s.profiles sender).user = 0 then (some .profileDoesNotExist, s)
  else if ¬ (s.profiles sender).isActive then (some .profileNotActive, s)
  else
    let profiles := Function.update s.profiles sender
      { s.profiles sender with username := username, bio := bio,
                               profilePictureIpfsHash := pic }
    (none, { s with profiles := profiles })

/-- Solidity `createPost(_ipfsHash)`; `time` is `block.timestamp`. -/
def createPost (s : SMState) (sender : Nat) (ipfsHash : String)
    (time : Nat) : Option SMErr × SMState :=
  if (s.profiles sender).user = 0 then (some .profileDoesNotExist, s)
  else if ¬ (s.profiles sender).isActive then (some .profileNotActive, s)
  else
    let postId := s.postIds + 1
    let posts := Function.update s.posts postId
      ⟨postId, sender, ipfsHash, time, 0, 0, true⟩
    (none, { s with postIds := postId, posts := posts })

/-- Solidity `likePost(_postId)`. -/
def likePost (s : SMState) (sender : Nat) (postId : Nat) :
    Option SMErr × SMState :=
  if (s.posts postId).id = 0 then (some .postDoesNotExist, s)
  else if ¬ (s.posts postId).isActive then (some .postNotActive, s)
  else if s.postLikes sender postId then (some .alreadyLiked, s)
  else
    let postLikes := Function.update s.postLikes sender
      (Function.update (s.postLikes sender) postId true)
    let s1 := { s with postLikes := postLikes }
    let posts := Function.update s1.posts postId
      { s1.posts postId with likeCount := (s1.posts postId).likeCount + 1 }
    (none, { s1 with posts := posts })

/-- Solidity `unlikePost(_postId)`. -/
def unlikePost (s : SMState) (sender : Nat) (postId : Nat) :
    Option SMErr × SMState :=
  if (s.posts postId).id = 0 then (some .postDoesNotExist, s)
  else if ¬ (s.posts postId).isActive then (some .postNotActive, s)
  else if ¬ s.postLikes sender postId then (some .notYetLiked, s)
  else
    let postLikes := Function.update s.postLikes sender
      (Function.update (s.postLikes sender) postId false)
    let s1 := { s with postLikes := postLikes }
    let posts := Function.update s1.posts postId
      { s1.posts postId with likeCount := (s1.posts postId).likeCount - 1 }
    (none, { s1 with posts := posts })

/-- Solidity `addComment(_postId, _content)`; `time` is `block.timestamp`. -/
def addComment (s : SMState) (sender : Nat) (postId : Nat)
    (content : String) (time : Nat) : Option SMErr × SMState :=
  if (s.posts postId).id = 0 then (some .postDoesNotExist, s)
  else if ¬ (s.posts postId).isActive then (some .postNotActive, s)
  else if (s.profiles sender).user = 0 then (some .profileDoesNotExist, s)
  else if ¬ (s.profiles sender).isActive then (some .profileNotActive, s)
  else
    let commentId := s.commentIds + 1
    let comments := Function.update s.comments commentId
      ⟨commentId, postId, sender, content, time, true⟩
    let s1 := { s with commentIds := commentId, comments := comments }
    let posts := Function.update s1.posts postId
      { s1.posts postId with commentCount := (s1.posts postId).commentCount + 1 }
    (none, { s1 with posts := posts })

/-- Solidity `followUser(_userToFollow)`. -/
def followUser (s : SMState) (sender : Nat) (target : Nat) :
    Option SMErr × SMState :=
  if target = sender then (some .cannotFollowSelf, s)
  else if (s.profiles sender).user = 0 then (some .profileDoesNotExist, s)
  else if (s.profiles target).user = 0 then (some .targetProfileDoesNotExist, s)
  else if ¬ (s.profiles sender).isActive then (some .profileNotActive, s)
  else if ¬ (s.profiles target).isActive then (some .targetProfileNotActive, s)
  else if s.follows sender target then (some .alreadyFollowing, s)
  else
    let follows := Function.update s.follows sender
      (Function.update (s.follows sender) target true)
    let s1 := { s with follows := follows }
    let profiles2 := Function.update s1.profiles sender
      { s1.profiles sender with
          followingCount := (s1.profiles sender).followingCount + 1 }
    let s2 := { s1 with profiles := profiles2 }
    let profiles3 := Function.update s2.profiles target
      { s2.profiles target with
          followerCount := (s2.profiles target).followerCount + 1 }
    (none, { s2 with profiles := profiles3 })

/-- Solidity `unfollowUser(_userToUnfollow)`. -/
def unfollowUser (s : SMState) (sender : Nat) (target : Nat) :
    Option SMErr × SMState :=
  if ¬ s.follows sender target then (some .notFollowing, s)
  else
    let follows := Function.update s.follows sender
      (Function.update (s.follows sender) target false)
    let s1 := { s with follows := follows }
    let profiles2 := Function.update s1.profiles sender
      { s1.profiles sender with
          followingCount := (s1.profiles sender).followingCount - 1 }
    let s2 := { s1 with profiles := profiles2 }
    let profiles3 := Function.update s2.profiles target
      { s2.profiles target with
          followerCount := (s2.profiles target).followerCount - 1 }
    (none, { s2 with profiles := profiles3 })

/-- Solidity `getPost(_postId)` (view). -/
def getPost (s : SMState) (postId : Nat) : Option SMErr × SMPost :=
  let post := s.posts postId
  if post.id = 0 then (some .postDoesNotExist, SMPost.zero)
  else (none, post)

/-- Solidity `getProfile(_user)` (view). -/
def getProfile (s : SMState) (user : Nat) : Option SMErr × SMProfile :=
  let profile := s.profiles user
  if profile.user = 0 then (some .profileDoesNotExist, SMProfile.zero)
  else (none, profile)

/-- Solidity `hasLiked(_user, _postId)` (view). -/
def hasLiked (s : SMState) (user : Nat) (postId : Nat) : Bool :=
  s.postLikes user postId

/-- Solidity `isFollowing(_follower, _followed)` (view). -/
def isFollowing (s : SMState) (follower followed : Nat) : Bool :=
  s.follows follower followed

/-- Solidity `getTotalPosts()` (view). -/
def getTotalPosts (s : SMState) : Nat := s.postIds

end SMState

/-- One transaction against the SocialMedia contract: the function called
together with its `msg.sender`, arguments, and (where read) `block.timestamp`. -/
inductive SMOp where
  | createProfile (sender : Nat) (username bio pic : String)
  | updateProfile (sender : Nat) (username bio pic : String)
  | createPost (sender : Nat) (ipfsHash : String) (time : Nat)
  | likePost (sender postId : Nat)
  | unlikePost (sender postId : Nat)
  | addComment (sender postId : Nat) (content : String) (time : Nat)
  | followUser (sender target : Nat)
  | unfollowUser (sender target : Nat)
deriving Repr

/-- The `msg.sender` of a transaction. -/
def SMOp.sender : SMOp → Nat
  | .createProfile a _ _ _ => a
  | .updateProfile a _ _ _ => a
  | .createPost a _ _ => a
  | .likePost a _ => a
  | .unlikePost a _ => a
  | .addComment a _ _ _ => a
  | .followUser a _ => a
  | .unfollowUser a _ => a

/-- Dispatch one transaction. -/
def SMOp.run (op : SMOp) (s : SMState) : Option SMErr × SMState :=
  match op with
  | .createProfile a u b p => s.createProfile a u b p
  | .updateProfile a u b p => s.updateProfile a u b p
  | .createPost a h t => s.createPost a h t
  | .likePost a p => s.likePost a p
  | .unlikePost a p => s.unlikePost a p
  | .addComment a p c t => s.addComment a p c t
  | .followUser a t => s.followUser a t
  | .unfollowUser a t => s.unfollowUser a t

/-- The storage after a transaction: a reverted transaction leaves storage at
the state the error branch carried (shown below to be the entry state). -/
def SMOp.apply (op : SMOp) (s : SMState) : SMState := (op.run s).2

/-- Reachable contract storage: obtained from the deployed state by any
sequence of transactions.  On Ethereum `msg.sender` is never `address(0)`,
hence the `sender ≠ 0` side condition. -/
inductive SMReachable : SMState → Prop where
  | deployed : SMReachable SMState.deployed
  | step {s : SMState} (op : SMOp) (hs : op.sender ≠ 0)
      (h : SMReachable s) : SMReachable (op.apply s)

/-! ## The Governance contract (`src/contracts/contracts/Governance.sol`) -/

/-- Errors of the `Governance` contract, one per `require` message. -/
inductive GovErr where
  | votingPeriodTooShort  -- "Voting period too short"
  | proposalDoesNotExist  -- "Proposal does not exist"
  | alreadyExecuted       -- "Proposal already executed"
  | proposalCanceled      -- "Proposal canceled" / "Proposal already canceled"
  | votingPeriodEnded     -- "Voting period ended"
  | alreadyVoted          -- "Already voted"
  | votingPeriodNotEnded  -- "Voting period not ended"
  | quorumNotReached      -- "Quorum not reached"
  | proposalRejected      -- "Proposal rejected"
  | notAuthorized         -- "Not authorized"
deriving Repr, DecidableEq

/-- Solidity `struct Proposal`. -/
structure Proposal where
  id : Nat
  proposer : Nat
  description : String
  ipfsHash : String
  forVotes : Nat
  againstVotes : Nat
  startTime : Nat
  endTime : Nat
  executed : Bool
  canceled : Bool
deriving Repr, DecidableEq

/-- The EVM zero value of `Proposal` (mapping default). -/
def Proposal.zero : Proposal := ⟨0, 0, "", "", 0, 0, 0, 0, false, false⟩

/-- Constant `MIN_VOTING_PERIOD = 3 days` (seconds). -/
def MIN_VOTING_PERIOD : Nat := 3 * 24 * 60 * 60

/-- Constant `QUORUM_PERCENTAGE = 10`. -/
def QUORUM_PERCENTAGE : Nat := 10

/-- Storage of the Governance contract. -/
structure GovState where
  proposalIds : Nat                 -- `_proposalIds.current()`
  proposals : Nat → Proposal        -- `mapping(uint256 => Proposal)`
  hasVoted : Nat → Nat → Bool       -- `mapping(uint256 => mapping(address => bool))`
  owner : Nat                       -- Ownable: set to the deployer

namespace GovState

/-- Solidity `createProposal(_description, _ipfsHash, _votingPeriod)`;
`time` is `block.timestamp`. -/
def createProposal (s : GovState) (sender : Nat)
    (description ipfsHash : String) (votingPeriod time : Nat) :
    Option GovErr × GovState :=
  if votingPeriod < MIN_VOTING_PERIOD then (some .votingPeriodTooShort, s)
  else
    let proposalId := s.proposalIds + 1
    let startTime := time
    let endTime := startTime + votingPeriod
    let proposals := Function.update s.proposals proposalId
      ⟨proposalId, sender, description, ipfsHash, 0, 0, startTime, endTime,
       false, false⟩
    (none, { s with proposalIds := proposalId, proposals := proposals })

/-- Solidity `castVote(_proposalId, _support)`; `time` is `block.timestamp`. -/
def castVote (s : GovState) (sender : Nat) (proposalId : Nat)
    (support : Bool) (time : Nat) : Option GovErr × GovState :=
  let proposal := s.proposals proposalId
  if proposal.id = 0 then (some .proposalDoesNotExist, s)
  else if proposal.executed then (some .alreadyExecuted, s)
  else if proposal.canceled then (some .proposalCanceled, s)
  else if ¬ (time ≤ proposal.endTime) then (some .votingPeriodEnded, s)
  else if s.hasVoted proposalId sender then (some .alreadyVoted, s)
  else
    let voted := Function.update s.hasVoted proposalId
      (Function.update (s.hasVoted proposalId) sender true)
    let s1 := { s with hasVoted := voted }
    let weight := 1
    let proposal2 :=
      if support then { proposal with forVotes := proposal.forVotes + weight }
      else { proposal with againstVotes := proposal.againstVotes + weight }
    let proposals := Function.update s1.proposals proposalId proposal2
    (none, { s1 with proposals := proposals })

/-- Solidity `executeProposal(_proposalId)`; `time` is `block.timestamp`. -/
def executeProposal (s : GovState) (proposalId : Nat) (time : Nat) :
    Option GovErr × GovState :=
  let proposal := s.proposals proposalId
  if proposal.id = 0 then (some .proposalDoesNotExist, s)
  else if proposal.executed then (some .alreadyExecuted, s)
  else if proposal.canceled then (some .proposalCanceled, s)
  else if ¬ (time > proposal.endTime) then (some .votingPeriodNotEnded, s)
  else
    let totalVotes := proposal.forVotes + proposal.againstVotes
    let quorumVotes := totalVotes * QUORUM_PERCENTAGE / 100
    if ¬ (totalVotes ≥ quorumVotes) then (some .quorumNotReached, s)
    else if ¬ (proposal.forVotes > proposal.againstVotes) then
      (some .proposalRejected, s)
    else
      let proposals := Function.update s.proposals proposalId
        { proposal with executed := true }
      (none, { s with proposals := proposals })

/-- Solidity `cancelProposal(_proposalId)`. -/
def cancelProposal (s : GovState) (sender : Nat) (proposalId : Nat) :
    Option GovErr × GovState :=
  let proposal := s.proposals proposalId
  if proposal.id = 0 then (some .proposalDoesNotExist, s)
  else if proposal.executed then (some .alreadyExecuted, s)
  else if proposal.canceled then (some .proposalCanceled, s)
  else if ¬ (sender = proposal.proposer ∨ sender = s.owner) then
    (some .notAuthorized, s)
  else
    let proposals := Function.update s.proposals proposalId
      { proposal with canceled := true }
    (none, { s with proposals := proposals })

end GovState

/-- Governance storage right after the constructor runs (Ownable sets the
deployer as owner). -/
def GovState.deployed (deployer : Nat) : GovState :=
  ⟨0, fun _ => Proposal.zero, fun _ _ => false, deployer⟩

/-- Run a list of transactions in order against the SocialMedia contract. -/
def SMState.runOps (s : SMState) (ops : List SMOp) : SMState :=
  ops.foldl (fun t op => op.apply t) s

/-- The set of accounts that have liked post `p` (the `hasLiked` fibre). -/
def SMState.likersOf (s : SMState) (p : Nat) : Set Nat :=
  {a | s.hasLiked a p = true}

/-- The set of accounts following account `a` (the `isFollowing` fibre). -/
def SMState.followersOf (s : SMState) (a : Nat) : Set Nat :=
  {b | s.isFollowing b a = true}

/-- The set of accounts that account `a` follows. -/
def SMState.followingOf (s : SMState) (a : Nat) : Set Nat :=
  {b | s.isFollowing a b = true}

/-- Inductive invariant for the like counters: post ids beyond the counter are
unallocated, nonexistent posts have no likes, and every post's `likeCount`
equals the number of accounts that have liked it. -/
def LikeCountInv (s : SMState) : Prop :=
  (∀ p, s.postIds < p → (s.posts p).id = 0) ∧
  (∀ p, (s.posts p).id = 0 → ∀ a, s.postLikes a p = false) ∧
  (∀ p, (s.likersOf p).Finite ∧ (s.posts p).likeCount = (s.likersOf p).ncard)

/-- Inductive invariant for the follow counters: follow edges only join
accounts whose profiles exist, and every profile's `followerCount` and
`followingCount` equal the sizes of the corresponding edge-set projections. -/
def FollowCountInv (s : SMState) : Prop :=
  (∀ a b, s.follows a b = true →
     (s.profiles a).user ≠ 0 ∧ (s.profiles b).user ≠ 0) ∧
  (∀ a, (s.followersOf a).Finite ∧ (s.followingOf a).Finite ∧
     (s.profiles a).followerCount = (s.followersOf a).ncard ∧
     (s.profiles a).followingCount = (s.followingOf a).ncard)

/-- A concrete governance state with one live proposal carrying one vote in
favour: deploy, create proposal 1, then voter 6 votes for at time 100. -/
def govSample : GovState :=
  (((GovState.deployed 9).createProposal 5 "d" "h" MIN_VOTING_PERIOD
      0).2.castVote 6 1 true 100).2

/-- A concrete social state: account 1 creates a profile and then a post
(which receives postId 1, at time 50). -/
def smSample : SMState :=
  (SMOp.createPost 1 "cid2" 50).apply
    ((SMOp.createProfile 1 "alice" "bio" "cid1").apply SMState.deployed)

/-- State `smSample` after account 2 (which has no profile) likes post 1. -/
def smSampleLiked : SMState := (SMOp.likePost 2 1).apply smSample

/-- A concrete social state: accounts 1 and 2 create profiles and account 1
follows account 2. -/
def smSampleFollow : SMState :=
  (SMOp.followUser 1 2).apply
    ((SMOp.createProfile 2 "bob" "b" "c2").apply
      ((SMOp.createProfile 1 "alice" "bio" "cid1").apply SMState.deployed))

/-! ## Theorems -/

/-- C4: in `executeProposal` the quorum gate `totalVotes >= totalVotes *
QUORUM_PERCENTAGE / 100` holds for every positive vote count (and
`QUORUM_PERCENTAGE ≤ 100`), so the "Quorum not reached" branch is
unreachable, and for a live proposal the outcome is decided exactly by the
time check together with `forVotes > againstVotes`. -/
theorem executeProposal_quorum_unreachable (s : GovState) (pid time : Nat)
    (hpos : 0 < (s.proposals pid).forVotes + (s.proposals pid).againstVotes) :
    QUORUM_PERCENTAGE ≤ 100 ∧
    ((s.proposals pid).forVotes + (s.proposals pid).againstVotes) *
        QUORUM_PERCENTAGE / 100 ≤
      (s.proposals pid).forVotes + (s.proposals pid).againstVotes ∧
    (s.executeProposal pid time).1 ≠ some GovErr.quorumNotReached ∧
    ((s.proposals pid).id ≠ 0 → (s.proposals pid).executed = false →
      (s.proposals pid).canceled = false →
      ((s.executeProposal pid time).1 = none ↔
        (s.proposals pid).endTime < time ∧
          (s.proposals pid).againstVotes < (s.proposals pid).forVotes)) := by
  have hq : ((s.proposals pid).forVotes + (s.proposals pid).againstVotes) *
      QUORUM_PERCENTAGE / 100 ≤
      (s.proposals pid).forVotes + (s.proposals pid).againstVotes := by
    simp only [QUORUM_PERCENTAGE]; omega
  refine ⟨by norm_num [QUORUM_PERCENTAGE], hq, ?_, ?_⟩
  · simp only [GovState.executeProposal]
    split_ifs <;> simp_all
  · intro hid hex hca
    simp only [GovState.executeProposal]
    split_ifs <;> simp_all

/-- C4 witness. -/
theorem executeProposal_quorum_unreachable_witness :
    0 < (govSample.proposals 1).forVotes + (govSample.proposals 1).againstVotes ∧
    (govSample.executeProposal 1 400000).1 ≠ some GovErr.quorumNotReached :=
  ⟨by decide,
   (executeProposal_quorum_unreachable govSample 1 400000 (by decide)).2.2.1⟩

/-- C8: `createProposal` with a voting period strictly below
`MIN_VOTING_PERIOD` fails with "Voting period too short" and allocates
nothing (the state, counter included, is untouched); and `castVote` on an
existing, non-executed, non-canceled proposal strictly after its `endTime`
fails with "Voting period ended". -/
theorem governance_timing_errors :
    (∀ (s : GovState) (sender : Nat) (d h : String) (vp time : Nat),
      vp < MIN_VOTING_PERIOD →
        s.createProposal sender d h vp time =
          (some GovErr.votingPeriodTooShort, s)) ∧
    (∀ (s : GovState) (sender pid : Nat) (support : Bool) (time : Nat),
      (s.proposals pid).id ≠ 0 → (s.proposals pid).executed = false →
      (s.proposals pid).canceled = false → (s.proposals pid).endTime < time →
        s.castVote sender pid support time =
          (some GovErr.votingPeriodEnded, s)) := by
  constructor
  · intro s sender d h vp time hvp
    simp only [GovState.createProposal]
    rw [if_pos hvp]
  · intro s sender pid support time hid hex hca ht
    simp only [GovState.castVote]
    split_ifs <;> simp_all <;> omega

/-- C8 witness: a one-second voting period is rejected on the deployed
state, and a vote on `govSample`'s proposal 1 at a time past its end time is
rejected as "Voting period ended". -/
theorem governance_timing_errors_witness :
    (1 < MIN_VOTING_PERIOD ∧
      (GovState.deployed 9).createProposal 5 "d" "h" 1 0 =
        (some GovErr.votingPeriodTooShort, GovState.deployed 9)) ∧
    ((govSample.proposals 1).id ≠ 0 ∧ (govSample.proposals 1).executed = false ∧
      (govSample.proposals 1).canceled = false ∧
      (govSample.proposals 1).endTime < 400000 ∧
      govSample.castVote 7 1 true 400000 =
        (some GovErr.votingPeriodEnded, govSample)) :=
  ⟨⟨by norm_num [MIN_VOTING_PERIOD],
    governance_timing_errors.1 (GovState.deployed 9) 5 "d" "h" 1 0
      (by norm_num [MIN_VOTING_PERIOD])⟩,
   ⟨by decide, by decide, by decide, by decide,
    governance_timing_errors.2 govSample 7 1 true 400000
      (by decide) (by decide) (by decide) (by decide)⟩⟩

/-- C10: for an existing, non-executed, non-canceled proposal and a voter who
has not yet voted, `castVote` at time `t` succeeds exactly when
`t ≤ endTime`, while `executeProposal` at time `t` fails its time check
exactly when `t ≤ endTime`; in particular at `t = endTime` a vote is still
accepted and execution is still rejected, and at no time are voting and the
execution time check simultaneously permitted. -/
theorem voting_execution_window_boundary (s : GovState)
    (sender pid : Nat) (support : Bool) (time : Nat)
    (hid : (s.proposals pid).id ≠ 0)
    (hex : (s.proposals pid).executed = false)
    (hca : (s.proposals pid).canceled = false)
    (hnv : s.hasVoted pid sender = false) :
    ((s.castVote sender pid support time).1 = none ↔
      time ≤ (s.proposals pid).endTime) ∧
    ((s.executeProposal pid time).1 = some GovErr.votingPeriodNotEnded ↔
      time ≤ (s.proposals pid).endTime) ∧
    ((s.castVote sender pid support (s.proposals pid).endTime).1 = none ∧
      (s.executeProposal pid (s.proposals pid).endTime).1 =
        some GovErr.votingPeriodNotEnded) ∧
    ¬ ((s.castVote sender pid support time).1 = none ∧
       (s.executeProposal pid time).1 ≠ some GovErr.votingPeriodNotEnded) := by
  have hvote : ∀ t : Nat, (s.castVote sender pid support t).1 = none ↔
      t ≤ (s.proposals pid).endTime := by
    intro t
    simp only [GovState.castVote]
    split_ifs <;> simp_all
  have hexec : ∀ t : Nat, (s.executeProposal pid t).1 =
      some GovErr.votingPeriodNotEnded ↔ t ≤ (s.proposals pid).endTime := by
    intro t
    simp only [GovState.executeProposal]
    split_ifs <;> simp_all
  refine ⟨hvote time, hexec time,
    ⟨(hvote _).mpr le_rfl, (hexec _).mpr le_rfl⟩, ?_⟩
  rintro ⟨h1, h2⟩
  exact h2 ((hexec time).mpr ((hvote time).mp h1))

/-- C10 witness: on `govSample`'s proposal 1 (ends at `MIN_VOTING_PERIOD`),
voter 7 voting exactly at the end time succeeds while execution exactly at
the end time is rejected as "Voting period not ended". -/
theorem voting_execution_window_boundary_witness :
    ((govSample.proposals 1).id ≠ 0 ∧
      (govSample.proposals 1).executed = false ∧
      (govSample.proposals 1).canceled = false ∧
      govSample.hasVoted 1 7 = false) ∧
    (govSample.castVote 7 1 true (govSample.proposals 1).endTime).1 = none ∧
    (govSample.executeProposal 1 (govSample.proposals 1).endTime).1 =
      some GovErr.votingPeriodNotEnded :=
  ⟨⟨by decide, by decide, by decide, by decide⟩,
   (voting_execution_window_boundary govSample 7 1 true 0
      (by decide) (by decide) (by decide) (by decide)).2.2.1⟩

/-- Helper: no transaction ever clears a profile's `user` key — once
`profiles[a].user` is nonzero it stays nonzero. -/
lemma profile_user_nonzero_mono (op : SMOp) (s : SMState) (a : Nat)
    (h : (s.profiles a).user ≠ 0) : ((op.apply s).profiles a).user ≠ 0 := by
  cases op <;>
    simp only [SMOp.apply, SMOp.run, SMState.createProfile,
      SMState.updateProfile, SMState.createPost, SMState.likePost,
      SMState.unlikePost, SMState.addComment, SMState.followUser,
      SMState.unfollowUser] <;>
    split_ifs <;>
    simp_all [Function.update] <;>
    split_ifs <;>
    simp_all

/-- Helper: `profile_user_nonzero_mono` extended to transaction sequences. -/
lemma profile_user_nonzero_runOps (ops : List SMOp) (s : SMState) (a : Nat)
    (h : (s.profiles a).user ≠ 0) : ((s.runOps ops).profiles a).user ≠ 0 := by
  induction ops generalizing s with
  | nil => exact h
  | cons op rest ih =>
    exact ih (op.apply s) (profile_user_nonzero_mono op s a h)

/-- C5: atomicity on error — whenever a SocialMedia transaction reverts with
any error, the storage it leaves behind is exactly the storage it started
from; no counter, record or edge set is partially mutated. -/
theorem socialLedger_atomic_on_error (op : SMOp) (s : SMState) (e : SMErr)
    (h : (op.run s).1 = some e) : (op.run s).2 = s := by
  cases op <;>
    simp only [SMOp.run, SMState.createProfile, SMState.updateProfile,
      SMState.createPost, SMState.likePost, SMState.unlikePost,
      SMState.addComment, SMState.followUser, SMState.unfollowUser]
      at h ⊢ <;>
    split_ifs at h ⊢ <;>
    simp_all

/-- C5 witness: liking a nonexistent post on the deployed state reverts with
"Post does not exist" and leaves the deployed state untouched. -/
theorem socialLedger_atomic_on_error_witness :
    ((SMOp.likePost 1 5).run SMState.deployed).1 =
      some SMErr.postDoesNotExist ∧
    ((SMOp.likePost 1 5).run SMState.deployed).2 = SMState.deployed :=
  ⟨by decide,
   socialLedger_atomic_on_error (SMOp.likePost 1 5) SMState.deployed
     SMErr.postDoesNotExist (by decide)⟩

/-- C6: `createProfile` succeeds at most once per account — the first call
(no existing profile) succeeds and stores a profile with both counters `0`
and `active = true`; a repeat call fails with "Profile already exists" and
changes nothing; and after a successful call, no matter what transactions
run in between, any later `createProfile` by the same account fails with
"Profile already exists". -/
theorem createProfile_at_most_once (s : SMState) (sender : Nat)
    (u b p : String) (hs : sender ≠ 0) :
    ((s.profiles sender).user = 0 →
      (s.createProfile sender u b p).1 = none ∧
      (s.createProfile sender u b p).2.profiles sender =
        ⟨sender, u, b, p, 0, 0, true⟩) ∧
    ((s.profiles sender).user ≠ 0 →
      s.createProfile sender u b p = (some SMErr.profileAlreadyExists, s)) ∧
    ((s.profiles sender).user = 0 →
      ∀ (ops : List SMOp) (u2 b2 p2 : String),
        ((s.createProfile sender u b p).2.runOps ops).createProfile
            sender u2 b2 p2 = (some SMErr.profileAlreadyExists,
          (s.createProfile sender u b p).2.runOps ops)) := by
  refine ⟨?_, ?_, ?_⟩
  · intro h0
    simp only [SMState.createProfile]
    rw [if_neg (by simp [h0])]
    simp [Function.update]
  · intro h0
    simp only [SMState.createProfile]
    rw [if_pos h0]
  · intro h0 ops u2 b2 p2
    have h1 : (((s.createProfile sender u b p).2).profiles sender).user ≠ 0 := by
      simp only [SMState.createProfile]
      rw [if_neg (by simp [h0])]
      simpa [Function.update] using hs
    have h2 := profile_user_nonzero_runOps ops _ sender h1
    generalize hgen : (s.createProfile sender u b p).2.runOps ops = t at h2
    simp only [SMState.createProfile]
    rw [if_pos h2]

/-- C6 witness: account 1 creates a profile on the deployed state (counters
`0`, active); an immediate second attempt fails with "Profile already
exists". -/
theorem createProfile_at_most_once_witness :
    ((1 : Nat) ≠ 0 ∧ (SMState.deployed.profiles 1).user = 0) ∧
    (SMState.deployed.createProfile 1 "alice" "bio" "cid1").1 = none ∧
    (SMState.deployed.createProfile 1 "alice" "bio" "cid1").2.profiles 1 =
      ⟨1, "alice", "bio", "cid1", 0, 0, true⟩ ∧
    (SMState.deployed.createProfile 1 "alice" "bio" "cid1").2.createProfile
        1 "x" "y" "z" = (some SMErr.profileAlreadyExists,
      (SMState.deployed.createProfile 1 "alice" "bio" "cid1").2) :=
  ⟨⟨by decide, by decide⟩,
   ((createProfile_at_most_once SMState.deployed 1 "alice" "bio" "cid1"
      (by decide)).1 (by decide)).1,
   ((createProfile_at_most_once SMState.deployed 1 "alice" "bio" "cid1"
      (by decide)).1 (by decide)).2,
   (createProfile_at_most_once SMState.deployed 1 "alice" "bio" "cid1"
      (by decide)).2.2 (by decide) [] "x" "y" "z"⟩

/-- C7: round-trip — for a caller with an existing active profile,
`createPost(ref)` succeeds and `getPost` on the freshly allocated id
(`getTotalPosts` afterwards) returns a post with creator = caller,
`ipfsHash = ref`, `likeCount = 0`, `commentCount = 0`, `isActive = true`. -/
theorem createPost_getPost_round_trip (s : SMState) (sender : Nat)
    (ref : String) (time : Nat)
    (h1 : (s.profiles sender).user ≠ 0)
    (h2 : (s.profiles sender).isActive = true) :
    (s.createPost sender ref time).1 = none ∧
    (s.createPost sender ref time).2.getPost
        ((s.createPost sender ref time).2.getTotalPosts) =
      (none, ⟨s.postIds + 1, sender, ref, time, 0, 0, true⟩) := by
  simp only [SMState.createPost]
  rw [if_neg h1, if_neg (by simp [h2])]
  exact ⟨rfl, by simp [SMState.getPost, SMState.getTotalPosts, Function.update]⟩

/-- C7 witness: on `smSample`'s first step (account 1 has a profile), a post
with reference "cid9" at time 77 round-trips through `getPost`. -/
theorem createPost_getPost_round_trip_witness :
    ((smSample.profiles 1).user ≠ 0 ∧
      (smSample.profiles 1).isActive = true) ∧
    (smSample.createPost 1 "cid9" 77).1 = none ∧
    (smSample.createPost 1 "cid9" 77).2.getPost
        ((smSample.createPost 1 "cid9" 77).2.getTotalPosts) =
      (none, ⟨smSample.postIds + 1, 1, "cid9", 77, 0, 0, true⟩) :=
  ⟨⟨by decide, by decide⟩,
   createPost_getPost_round_trip smSample 1 "cid9" 77 (by decide) (by decide)⟩

/-- C9: frame of `updateProfile` — it fails with "Profile does not exist"
when the caller has no profile and with "Profile is not active" when the
profile is inactive (in both cases the state is untouched); on success it
overwrites exactly the caller's username, bio and picture reference, keeps
the caller's `user` key, both counters and `isActive`, and leaves every
other profile, the posts, comments, counters and both edge sets unchanged. -/
theorem updateProfile_frame (s : SMState) (sender : Nat) (u b p : String) :
    ((s.profiles sender).user = 0 →
      s.updateProfile sender u b p = (some SMErr.profileDoesNotExist, s)) ∧
    ((s.profiles sender).user ≠ 0 → (s.profiles sender).isActive = false →
      s.updateProfile sender u b p = (some SMErr.profileNotActive, s)) ∧
    ((s.profiles sender).user ≠ 0 → (s.profiles sender).isActive = true →
      (s.updateProfile sender u b p).1 = none ∧
      (s.updateProfile sender u b p).2.profiles sender =
        { s.profiles sender with
            username := u, bio := b, profilePictureIpfsHash := p } ∧
      ((s.updateProfile sender u b p).2.profiles sender).user =
        (s.profiles sender).user ∧
      ((s.updateProfile sender u b p).2.profiles sender).followerCount =
        (s.profiles sender).followerCount ∧
      ((s.updateProfile sender u b p).2.profiles sender).followingCount =
        (s.profiles sender).followingCount ∧
      ((s.updateProfile sender u b p).2.profiles sender).isActive =
        (s.profiles sender).isActive ∧
      (∀ a, a ≠ sender →
        (s.updateProfile sender u b p).2.profiles a = s.profiles a) ∧
      (s.updateProfile sender u b p).2.posts = s.posts ∧
      (s.updateProfile sender u b p).2.comments = s.comments ∧
      (s.updateProfile sender u b p).2.postIds = s.postIds ∧
      (s.updateProfile sender u b p).2.commentIds = s.commentIds ∧
      (s.updateProfile sender u b p).2.postLikes = s.postLikes ∧
      (s.updateProfile sender u b p).2.follows = s.follows) := by
  refine ⟨?_, ?_, ?_⟩
  · intro h0
    simp only [SMState.updateProfile]
    rw [if_pos h0]
  · intro h0 hinact
    simp only [SMState.updateProfile]
    rw [if_neg h0, if_pos (by simp [hinact])]
  · intro h0 hact
    simp only [SMState.updateProfile]
    rw [if_neg h0, if_neg (by simp [hact])]
    refine ⟨rfl, by simp [Function.update], by simp [Function.update],
      by simp [Function.update], by simp [Function.update],
      by simp [Function.update, hact], ?_, rfl, rfl, rfl, rfl, rfl, rfl⟩
    intro a ha
    simp [Function.update, ha]

/-- C9 witness: account 1 on `smSample` successfully rewrites its profile
strings while both counters, the active flag and the post table survive. -/
theorem updateProfile_frame_witness :
    ((smSample.profiles 1).user ≠ 0 ∧
      (smSample.profiles 1).isActive = true) ∧
    (smSample.updateProfile 1 "al2" "bio2" "cid7").1 = none ∧
    (smSample.updateProfile 1 "al2" "bio2" "cid7").2.profiles 1 =
      { smSample.profiles 1 with
          username := "al2", bio := "bio2", profilePictureIpfsHash := "cid7" } :=
  ⟨⟨by decide, by decide⟩,
   ((updateProfile_frame smSample 1 "al2" "bio2" "cid7").2.2
      (by decide) (by decide)).1,
   ((updateProfile_frame smSample 1 "al2" "bio2" "cid7").2.2
      (by decide) (by decide)).2.1⟩

/-- C3: `likePost` does not consult the caller's profile — a caller with no
profile can like any existing, active post it has not already liked, and the
call succeeds. -/
theorem likePost_needs_no_profile (s : SMState) (sender postId : Nat)
    (_hnoprof : (s.profiles sender).user = 0)
    (hid : (s.posts postId).id ≠ 0)
    (hact : (s.posts postId).isActive = true)
    (hnot : s.postLikes sender postId = false) :
    (s.likePost sender postId).1 = none := by
  simp only [SMState.likePost]
  rw [if_neg hid, if_neg (by simp [hact]), if_neg (by simp [hnot])]

/-- C3 witness — exactly the spec scenario: account 1 creates a profile and
then a post that receives postId 1; account 2, which has no profile, calls
`likePost(1)` and the call succeeds. -/
theorem likePost_needs_no_profile_witness :
    ((smSample.profiles 2).user = 0 ∧ smSample.getTotalPosts = 1 ∧
      (smSample.posts 1).id ≠ 0 ∧ (smSample.posts 1).isActive = true ∧
      smSample.postLikes 2 1 = false) ∧
    (smSample.likePost 2 1).1 = none :=
  ⟨⟨by decide, by decide, by decide, by decide, by decide⟩,
   likePost_needs_no_profile smSample 2 1
     (by decide) (by decide) (by decide) (by decide)⟩

/-- Helper: effect of a nested two-level mapping write on a first-index
fibre `{a | f a p}`. -/
lemma fstFibre_update (f : Nat → Nat → Bool) (c pid : Nat) (v : Bool)
    (p : Nat) :
    {a | Function.update f c (Function.update (f c) pid v) a p = true} =
      if p = pid then
        (if v then insert c {a | f a p = true}
         else {a | f a p = true} \ {c})
      else {a | f a p = true} := by
  ext a
  by_cases hac : a = c <;> by_cases hp : p = pid <;> cases v <;>
    simp [Function.update_apply, hac, hp]

/-- Helper: effect of a nested two-level mapping write on a second-index
fibre `{b | f x b}`. -/
lemma sndFibre_update (f : Nat → Nat → Bool) (c t : Nat) (v : Bool)
    (x : Nat) :
    {b | Function.update f c (Function.update (f c) t v) x b = true} =
      if x = c then
        (if v then insert t {b | f x b = true}
         else {b | f x b = true} \ {t})
      else {b | f x b = true} := by
  ext b
  by_cases hxc : x = c <;> by_cases hbt : b = t <;> cases v <;>
    simp [Function.update_apply, hxc, hbt]


/-- Helper: every transaction preserves `LikeCountInv`. -/
lemma likeCountInv_step (op : SMOp) (s : SMState) (h : LikeCountInv s) :
    LikeCountInv (op.apply s) := by
  obtain ⟨h1, h2, h3⟩ := h
  cases op with
  | createProfile sender u b p =>
      simp only [SMOp.apply, SMOp.run, SMState.createProfile]
      by_cases hu : (s.profiles sender).user ≠ 0
      · rw [if_pos hu]; exact ⟨h1, h2, h3⟩
      · rw [if_neg hu]; exact ⟨h1, h2, h3⟩
  | updateProfile sender u b p =>
      simp only [SMOp.apply, SMOp.run, SMState.updateProfile]
      by_cases hu : (s.profiles sender).user = 0
      · rw [if_pos hu]; exact ⟨h1, h2, h3⟩
      · rw [if_neg hu]
        by_cases ha : (s.profiles sender).isActive = true
        · rw [if_neg (not_not_intro ha)]; exact ⟨h1, h2, h3⟩
        · rw [if_pos ha]; exact ⟨h1, h2, h3⟩
  | followUser sender target =>
      simp only [SMOp.apply, SMOp.run, SMState.followUser]
      by_cases h0 : target = sender
      · rw [if_pos h0]; exact ⟨h1, h2, h3⟩
      · rw [if_neg h0]
        by_cases hc1 : (s.profiles sender).user = 0
        · rw [if_pos hc1]; exact ⟨h1, h2, h3⟩
        · rw [if_neg hc1]
          by_cases hc2 : (s.profiles target).user = 0
          · rw [if_pos hc2]; exact ⟨h1, h2, h3⟩
          · rw [if_neg hc2]
            by_cases hc3 : (s.profiles sender).isActive = true
            · rw [if_neg (not_not_intro hc3)]
              by_cases hc4 : (s.profiles target).isActive = true
              · rw [if_neg (not_not_intro hc4)]
                by_cases hc5 : s.follows sender target = true
                · rw [if_pos hc5]; exact ⟨h1, h2, h3⟩
                · rw [if_neg hc5]; exact ⟨h1, h2, h3⟩
              · rw [if_pos hc4]; exact ⟨h1, h2, h3⟩
            · rw [if_pos hc3]; exact ⟨h1, h2, h3⟩
  | unfollowUser sender target =>
      simp only [SMOp.apply, SMOp.run, SMState.unfollowUser]
      by_cases hc : s.follows sender target = true
      · rw [if_neg (not_not_intro hc)]; exact ⟨h1, h2, h3⟩
      · rw [if_pos hc]; exact ⟨h1, h2, h3⟩
  | createPost sender ref time =>
      simp only [SMOp.apply, SMOp.run, SMState.createPost]
      by_cases hu : (s.profiles sender).user = 0
      · rw [if_pos hu]; exact ⟨h1, h2, h3⟩
      · rw [if_neg hu]
        by_cases ha : (s.profiles sender).isActive = true
        · rw [if_neg (not_not_intro ha)]
          refine ⟨?_, ?_, ?_⟩
          · intro p hp
            dsimp only at hp ⊢
            rw [Function.update_apply, if_neg (by omega)]
            exact h1 p (by omega)
          · intro p hp a
            dsimp only at hp ⊢
            rw [Function.update_apply] at hp
            by_cases hpn : p = s.postIds + 1
            · rw [if_pos hpn] at hp; exact absurd hp (by simp)
            · rw [if_neg hpn] at hp; exact h2 p hp a
          · intro p
            dsimp only [SMState.likersOf, SMState.hasLiked]
            rw [Function.update_apply]
            by_cases hpn : p = s.postIds + 1
            · rw [if_pos hpn]
              have hid0 : (s.posts p).id = 0 := by
                rw [hpn]; exact h1 (s.postIds + 1) (by omega)
              have hemp : {a | s.postLikes a p = true} = (∅ : Set Nat) := by
                ext a
                simp [h2 p hid0 a]
              rw [hemp]
              exact ⟨Set.finite_empty, by simp⟩
            · rw [if_neg hpn]; exact h3 p
        · rw [if_pos ha]; exact ⟨h1, h2, h3⟩
  | likePost sender pid =>
      simp only [SMOp.apply, SMOp.run, SMState.likePost]
      by_cases hid : (s.posts pid).id = 0
      · rw [if_pos hid]; exact ⟨h1, h2, h3⟩
      · rw [if_neg hid]
        by_cases ha : (s.posts pid).isActive = true
        · rw [if_neg (not_not_intro ha)]
          by_cases hl : s.postLikes sender pid = true
          · rw [if_pos hl]; exact ⟨h1, h2, h3⟩
          · rw [if_neg hl]
            refine ⟨?_, ?_, ?_⟩
            · intro p hp
              dsimp only at hp ⊢
              rw [Function.update_apply]
              by_cases hpn : p = pid
              · rw [if_pos hpn]; dsimp only; exact h1 pid (hpn ▸ hp)
              · rw [if_neg hpn]; exact h1 p hp
            · intro p hp a
              dsimp only at hp ⊢
              rw [Function.update_apply] at hp
              by_cases hpn : p = pid
              · rw [if_pos hpn] at hp; dsimp only at hp
                exact absurd (hpn ▸ hp) hid
              · rw [if_neg hpn] at hp
                have hold := h2 p hp a
                rw [Function.update_apply]
                by_cases hac : a = sender
                · rw [if_pos hac, Function.update_apply, if_neg hpn]
                  rw [hac] at hold; exact hold
                · rw [if_neg hac]; exact hold
            · intro p
              dsimp only [SMState.likersOf, SMState.hasLiked]
              rw [fstFibre_update s.postLikes sender pid true p,
                Function.update_apply]
              by_cases hpn : p = pid
              · rw [if_pos hpn, if_pos hpn, if_pos rfl]
                dsimp only
                rw [hpn]
                have hfin : {a | s.postLikes a pid = true}.Finite := (h3 pid).1
                have hmem : sender ∉ {a | s.postLikes a pid = true} := by
                  simpa using hl
                refine ⟨hfin.insert sender, ?_⟩
                rw [Set.ncard_insert_of_not_mem hmem hfin]
                exact congrArg (· + 1) (h3 pid).2
              · rw [if_neg hpn, if_neg hpn]; exact h3 p
        · rw [if_pos ha]; exact ⟨h1, h2, h3⟩
  | unlikePost sender pid =>
      simp only [SMOp.apply, SMOp.run, SMState.unlikePost]
      by_cases hid : (s.posts pid).id = 0
      · rw [if_pos hid]; exact ⟨h1, h2, h3⟩
      · rw [if_neg hid]
        by_cases ha : (s.posts pid).isActive = true
        · rw [if_neg (not_not_intro ha)]
          by_cases hl : s.postLikes sender pid = true
          · rw [if_neg (not_not_intro hl)]
            refine ⟨?_, ?_, ?_⟩
            · intro p hp
              dsimp only at hp ⊢
              rw [Function.update_apply]
              by_cases hpn : p = pid
              · rw [if_pos hpn]; dsimp only; exact h1 pid (hpn ▸ hp)
              · rw [if_neg hpn]; exact h1 p hp
            · intro p hp a
              dsimp only at hp ⊢
              rw [Function.update_apply] at hp
              by_cases hpn : p = pid
              · rw [if_pos hpn] at hp; dsimp only at hp
                exact absurd (hpn ▸ hp) hid
              · rw [if_neg hpn] at hp
                have hold := h2 p hp a
                rw [Function.update_apply]
                by_cases hac : a = sender
                · rw [if_pos hac, Function.update_apply, if_neg hpn]
                  rw [hac] at hold; exact hold
                · rw [if_neg hac]; exact hold
            · intro p
              dsimp only [SMState.likersOf, SMState.hasLiked]
              rw [fstFibre_update s.postLikes sender pid false p,
                Function.update_apply]
              by_cases hpn : p = pid
              · rw [if_pos hpn, if_pos hpn, if_neg (by decide)]
                dsimp only
                rw [hpn]
                have hfin : {a | s.postLikes a pid = true}.Finite := (h3 pid).1
                have hmem : sender ∈ {a | s.postLikes a pid = true} := by
                  simpa using hl
                refine ⟨hfin.diff _, ?_⟩
                rw [Set.ncard_diff_singleton_of_mem hmem hfin]
                exact congrArg (· - 1) (h3 pid).2
              · rw [if_neg hpn, if_neg hpn]; exact h3 p
          · rw [if_pos hl]; exact ⟨h1, h2, h3⟩
        · rw [if_pos ha]; exact ⟨h1, h2, h3⟩
  | addComment sender pid content time =>
      simp only [SMOp.apply, SMOp.run, SMState.addComment]
      by_cases hid : (s.posts pid).id = 0
      · rw [if_pos hid]; exact ⟨h1, h2, h3⟩
      · rw [if_neg hid]
        by_cases ha : (s.posts pid).isActive = true
        · rw [if_neg (not_not_intro ha)]
          by_cases hu : (s.profiles sender).user = 0
          · rw [if_pos hu]; exact ⟨h1, h2, h3⟩
          · rw [if_neg hu]
            by_cases hpa : (s.profiles sender).isActive = true
            · rw [if_neg (not_not_intro hpa)]
              refine ⟨?_, ?_, ?_⟩
              · intro p hp
                dsimp only at hp ⊢
                rw [Function.update_apply]
                by_cases hpn : p = pid
                · rw [if_pos hpn]; dsimp only; exact h1 pid (hpn ▸ hp)
                · rw [if_neg hpn]; exact h1 p hp
              · intro p hp a
                dsimp only at hp ⊢
                rw [Function.update_apply] at hp
                by_cases hpn : p = pid
                · rw [if_pos hpn] at hp; dsimp only at hp
                  exact absurd (hpn ▸ hp) hid
                · rw [if_neg hpn] at hp; exact h2 p hp a
              · intro p
                dsimp only [SMState.likersOf, SMState.hasLiked]
                rw [Function.update_apply]
                by_cases hpn : p = pid
                · rw [if_pos hpn]; dsimp only; rw [hpn]; exact h3 pid
                · rw [if_neg hpn]; exact h3 p
            · rw [if_pos hpa]; exact ⟨h1, h2, h3⟩
        · rw [if_pos ha]; exact ⟨h1, h2, h3⟩

/-- Helper: `LikeCountInv` holds at deployment. -/
lemma likeCountInv_deployed : LikeCountInv SMState.deployed := by
  refine ⟨fun p _ => rfl, fun p _ a => rfl, fun p => ⟨?_, ?_⟩⟩
  · have : SMState.deployed.likersOf p = (∅ : Set Nat) := by
      ext a
      simp [SMState.likersOf, SMState.hasLiked, SMState.deployed]
    rw [this]; exact Set.finite_empty
  · have : SMState.deployed.likersOf p = (∅ : Set Nat) := by
      ext a
      simp [SMState.likersOf, SMState.hasLiked, SMState.deployed]
    rw [this]; simp [SMState.deployed, SMPost.zero]

/-- Helper: `LikeCountInv` holds in every reachable state. -/
lemma likeCountInv_reachable (s : SMState) (h : SMReachable s) :
    LikeCountInv s := by
  induction h with
  | deployed => exact likeCountInv_deployed
  | step op hs hr ih => exact likeCountInv_step op _ ih

/-- C1: in every reachable state, every post's `likeCount` equals the number
of accounts for which `hasLiked` is true, and one further transaction of any
kind — in particular `likePost`, which sets the edge and bumps the counter
together, and `unlikePost`, which clears the edge and drops the counter
together — preserves the equality. -/
theorem likeCount_matches_hasLiked (s : SMState) (h : SMReachable s) :
    (∀ p, (s.posts p).likeCount =
      Set.ncard {a | s.hasLiked a p = true}) ∧
    (∀ (op : SMOp) (p : Nat), ((op.apply s).posts p).likeCount =
      Set.ncard {a | (op.apply s).hasLiked a p = true}) :=
  ⟨fun p => ((likeCountInv_reachable s h).2.2 p).2,
   fun op p => ((likeCountInv_step op s (likeCountInv_reachable s h)).2.2 p).2⟩

/-- C1 witness: the reachable state in which profile-owner 1 posted and
account 2 liked post 1 satisfies the counting law. -/
theorem likeCount_matches_hasLiked_witness :
    SMReachable smSampleLiked ∧
    (smSampleLiked.posts 1).likeCount =
      Set.ncard {a | smSampleLiked.hasLiked a 1 = true} :=
  have hreach : SMReachable smSampleLiked :=
    SMReachable.step (SMOp.likePost 2 1) (by decide)
      (SMReachable.step (SMOp.createPost 1 "cid2" 50) (by decide)
        (SMReachable.step (SMOp.createProfile 1 "alice" "bio" "cid1")
          (by decide) SMReachable.deployed))
  ⟨hreach, (likeCount_matches_hasLiked smSampleLiked hreach).1 1⟩

/-- Helper: a chain of two profile-map writes, evaluated pointwise. -/
lemma update2_apply (f : Nat → SMProfile) (c t : Nat) (P Q : SMProfile)
    (z : Nat) :
    Function.update (Function.update f c P) t Q z =
      if z = t then Q else if z = c then P else f z := by
  rw [Function.update_apply, Function.update_apply]

/-- Helper: one profile-map write whose record has nonzero `user` keeps every
nonzero `user` nonzero. -/
lemma update_user_ne (f : Nat → SMProfile) (c : Nat) (P : SMProfile)
    (z : Nat) (hP : P.user ≠ 0) (h : (f z).user ≠ 0) :
    ((Function.update f c P) z).user ≠ 0 := by
  rw [Function.update_apply]
  by_cases hzc : z = c
  · rw [if_pos hzc]; exact hP
  · rw [if_neg hzc]; exact h

/-- Helper: two profile-map writes whose records have nonzero `user` keep
every nonzero `user` nonzero. -/
lemma update2_user_ne (f : Nat → SMProfile) (c t : Nat) (P Q : SMProfile)
    (z : Nat) (hP : P.user ≠ 0) (hQ : Q.user ≠ 0) (h : (f z).user ≠ 0) :
    ((Function.update (Function.update f c P) t Q) z).user ≠ 0 := by
  rw [update2_apply]
  by_cases hzt : z = t
  · rw [if_pos hzt]; exact hQ
  · rw [if_neg hzt]
    by_cases hzc : z = c
    · rw [if_pos hzc]; exact hP
    · rw [if_neg hzc]; exact h

/-- Helper: setting edge `(c, pid)` inserts `c` into the first-index fibre
at `pid`. -/
lemma fstFibre_insert (f : Nat → Nat → Bool) (c pid : Nat) :
    {a | Function.update f c (Function.update (f c) pid true) a pid = true} =
      insert c {a | f a pid = true} := by
  rw [fstFibre_update, if_pos rfl, if_pos rfl]

/-- Helper: clearing edge `(c, pid)` removes `c` from the first-index fibre
at `pid`. -/
lemma fstFibre_erase (f : Nat → Nat → Bool) (c pid : Nat) :
    {a | Function.update f c (Function.update (f c) pid false) a pid = true} =
      {a | f a pid = true} \ {c} := by
  rw [fstFibre_update, if_pos rfl, if_neg (by decide)]

/-- Helper: an edge write at `(c, pid)` leaves first-index fibres at other
columns alone. -/
lemma fstFibre_other (f : Nat → Nat → Bool) (c pid : Nat) (v : Bool)
    (p : Nat) (hp : p ≠ pid) :
    {a | Function.update f c (Function.update (f c) pid v) a p = true} =
      {a | f a p = true} := by
  rw [fstFibre_update, if_neg hp]

/-- Helper: setting edge `(c, t)` inserts `t` into row `c`. -/
lemma sndFibre_insert (f : Nat → Nat → Bool) (c t : Nat) :
    {b | Function.update f c (Function.update (f c) t true) c b = true} =
      insert t {b | f c b = true} := by
  rw [sndFibre_update, if_pos rfl, if_pos rfl]

/-- Helper: clearing edge `(c, t)` removes `t` from row `c`. -/
lemma sndFibre_erase (f : Nat → Nat → Bool) (c t : Nat) :
    {b | Function.update f c (Function.update (f c) t false) c b = true} =
      {b | f c b = true} \ {t} := by
  rw [sndFibre_update, if_pos rfl, if_neg (by decide)]

/-- Helper: an edge write in row `c` leaves other rows alone. -/
lemma sndFibre_other (f : Nat → Nat → Bool) (c t : Nat) (v : Bool)
    (x : Nat) (hx : x ≠ c) :
    {b | Function.update f c (Function.update (f c) t v) x b = true} =
      {b | f x b = true} := by
  rw [sndFibre_update, if_neg hx]

/-- Helper: every transaction preserves `FollowCountInv`. -/
lemma followCountInv_step (op : SMOp) (s : SMState) (h : FollowCountInv s) :
    FollowCountInv (op.apply s) := by
  obtain ⟨h1, h2⟩ := h
  cases op with
  | createPost sender ref time =>
      simp only [SMOp.apply, SMOp.run, SMState.createPost]
      by_cases hu : (s.profiles sender).user = 0
      · rw [if_pos hu]; exact ⟨h1, h2⟩
      · rw [if_neg hu]
        by_cases ha : (s.profiles sender).isActive = true
        · rw [if_neg (not_not_intro ha)]; exact ⟨h1, h2⟩
        · rw [if_pos ha]; exact ⟨h1, h2⟩
  | likePost sender pid =>
      simp only [SMOp.apply, SMOp.run, SMState.likePost]
      by_cases hid : (s.posts pid).id = 0
      · rw [if_pos hid]; exact ⟨h1, h2⟩
      · rw [if_neg hid]
        by_cases ha : (s.posts pid).isActive = true
        · rw [if_neg (not_not_intro ha)]
          by_cases hl : s.postLikes sender pid = true
          · rw [if_pos hl]; exact ⟨h1, h2⟩
          · rw [if_neg hl]; exact ⟨h1, h2⟩
        · rw [if_pos ha]; exact ⟨h1, h2⟩
  | unlikePost sender pid =>
      simp only [SMOp.apply, SMOp.run, SMState.unlikePost]
      by_cases hid : (s.posts pid).id = 0
      · rw [if_pos hid]; exact ⟨h1, h2⟩
      · rw [if_neg hid]
        by_cases ha : (s.posts pid).isActive = true
        · rw [if_neg (not_not_intro ha)]
          by_cases hl : s.postLikes sender pid = true
          · rw [if_neg (not_not_intro hl)]; exact ⟨h1, h2⟩
          · rw [if_pos hl]; exact ⟨h1, h2⟩
        · rw [if_pos ha]; exact ⟨h1, h2⟩
  | addComment sender pid content time =>
      simp only [SMOp.apply, SMOp.run, SMState.addComment]
      by_cases hid : (s.posts pid).id = 0
      · rw [if_pos hid]; exact ⟨h1, h2⟩
      · rw [if_neg hid]
        by_cases ha : (s.posts pid).isActive = true
        · rw [if_neg (not_not_intro ha)]
          by_cases hu : (s.profiles sender).user = 0
          · rw [if_pos hu]; exact ⟨h1, h2⟩
          · rw [if_neg hu]
            by_cases hpa : (s.profiles sender).isActive = true
            · rw [if_neg (not_not_intro hpa)]; exact ⟨h1, h2⟩
            · rw [if_pos hpa]; exact ⟨h1, h2⟩
        · rw [if_pos ha]; exact ⟨h1, h2⟩
  | createProfile sender u b p =>
      simp only [SMOp.apply, SMOp.run, SMState.createProfile]
      by_cases hu : (s.profiles sender).user ≠ 0
      · rw [if_pos hu]; exact ⟨h1, h2⟩
      · rw [if_neg hu]
        have h00 : (s.profiles sender).user = 0 := not_not.mp hu
        refine ⟨?_, ?_⟩
        · intro x y hxy
          dsimp only at hxy ⊢
          obtain ⟨hux, huy⟩ := h1 x y hxy
          have hxs : x ≠ sender := fun hh => hux (by rw [hh]; exact h00)
          have hys : y ≠ sender := fun hh => huy (by rw [hh]; exact h00)
          constructor
          · rw [Function.update_noteq hxs]; exact hux
          · rw [Function.update_noteq hys]; exact huy
        · intro a
          dsimp only [SMState.followersOf, SMState.followingOf,
            SMState.isFollowing]
          by_cases has : a = sender
          · subst has
            have hempF : {b2 | s.follows b2 a = true} = (∅ : Set Nat) := by
              ext b2
              simp only [Set.mem_setOf_eq, Set.mem_empty_iff_false, iff_false]
              intro hb
              exact (h1 b2 a hb).2 h00
            have hempG : {b2 | s.follows a b2 = true} = (∅ : Set Nat) := by
              ext b2
              simp only [Set.mem_setOf_eq, Set.mem_empty_iff_false, iff_false]
              intro hb
              exact (h1 a b2 hb).1 h00
            rw [Function.update_same, hempF, hempG]
            exact ⟨Set.finite_empty, Set.finite_empty, by simp, by simp⟩
          · rw [Function.update_noteq has]
            exact h2 a
  | updateProfile sender u b p =>
      simp only [SMOp.apply, SMOp.run, SMState.updateProfile]
      by_cases hu : (s.profiles sender).user = 0
      · rw [if_pos hu]; exact ⟨h1, h2⟩
      · rw [if_neg hu]
        by_cases ha : (s.profiles sender).isActive = true
        · rw [if_neg (not_not_intro ha)]
          refine ⟨?_, ?_⟩
          · intro x y hxy
            dsimp only at hxy ⊢
            obtain ⟨hux, huy⟩ := h1 x y hxy
            exact ⟨update_user_ne s.profiles sender _ x hu hux,
                   update_user_ne s.profiles sender _ y hu huy⟩
          · intro a
            dsimp only [SMState.followersOf, SMState.followingOf,
              SMState.isFollowing]
            by_cases has : a = sender
            · subst has
              rw [Function.update_same]
              exact ⟨(h2 a).1, (h2 a).2.1, (h2 a).2.2.1, (h2 a).2.2.2⟩
            · rw [Function.update_noteq has]
              exact h2 a
        · rw [if_pos ha]; exact ⟨h1, h2⟩
  | followUser sender target =>
      simp only [SMOp.apply, SMOp.run, SMState.followUser]
      by_cases h0 : target = sender
      · rw [if_pos h0]; exact ⟨h1, h2⟩
      · rw [if_neg h0]
        by_cases hc1 : (s.profiles sender).user = 0
        · rw [if_pos hc1]; exact ⟨h1, h2⟩
        · rw [if_neg hc1]
          by_cases hc2 : (s.profiles target).user = 0
          · rw [if_pos hc2]; exact ⟨h1, h2⟩
          · rw [if_neg hc2]
            by_cases hc3 : (s.profiles sender).isActive = true
            · rw [if_neg (not_not_intro hc3)]
              by_cases hc4 : (s.profiles target).isActive = true
              · rw [if_neg (not_not_intro hc4)]
                by_cases hc5 : s.follows sender target = true
                · rw [if_pos hc5]; exact ⟨h1, h2⟩
                · rw [if_neg hc5]
                  dsimp only
                  rw [Function.update_noteq h0]
                  refine ⟨?_, ?_⟩
                  · intro x y hxy
                    dsimp only at hxy ⊢
                    have hedge : (x = sender ∧ y = target) ∨
                        s.follows x y = true := by
                      rcases eq_or_ne x sender with hx | hx
                      · subst hx
                        rw [Function.update_same] at hxy
                        rcases eq_or_ne y target with hy | hy
                        · exact Or.inl ⟨rfl, hy⟩
                        · exact Or.inr
                            (by rwa [Function.update_noteq hy] at hxy)
                      · exact Or.inr (by rwa [Function.update_noteq hx] at hxy)
                    have hux : (s.profiles x).user ≠ 0 := by
                      rcases hedge with ⟨hx, _⟩ | hold
                      · rw [hx]; exact hc1
                      · exact (h1 x y hold).1
                    have huy : (s.profiles y).user ≠ 0 := by
                      rcases hedge with ⟨_, hy⟩ | hold
                      · rw [hy]; exact hc2
                      · exact (h1 x y hold).2
                    exact ⟨update2_user_ne s.profiles sender target _ _ x
                        hc1 hc2 hux,
                      update2_user_ne s.profiles sender target _ _ y
                        hc1 hc2 huy⟩
                  · intro a
                    dsimp only [SMState.followersOf, SMState.followingOf,
                      SMState.isFollowing]
                    by_cases hat : a = target
                    · subst hat
                      rw [fstFibre_insert,
                        sndFibre_other s.follows sender a true a h0]
                      refine ⟨((h2 a).1).insert sender, (h2 a).2.1, ?_, ?_⟩
                      · rw [update2_apply, if_pos rfl]
                        dsimp only
                        have hfin : {b2 | s.follows b2 a = true}.Finite :=
                          (h2 a).1
                        have hmem : sender ∉ {b2 | s.follows b2 a = true} := by
                          simpa using hc5
                        rw [Set.ncard_insert_of_not_mem hmem hfin]
                        exact congrArg (· + 1) (h2 a).2.2.1
                      · rw [update2_apply, if_pos rfl]
                        dsimp only
                        exact (h2 a).2.2.2
                    · rw [fstFibre_other s.follows sender target true a hat]
                      by_cases has : a = sender
                      · subst has
                        rw [sndFibre_insert]
                        refine ⟨(h2 a).1, ((h2 a).2.1).insert target, ?_, ?_⟩
                        · rw [update2_apply, if_neg hat, if_pos rfl]
                          dsimp only
                          exact (h2 a).2.2.1
                        · rw [update2_apply, if_neg hat, if_pos rfl]
                          dsimp only
                          have hfin : {b2 | s.follows a b2 = true}.Finite :=
                            (h2 a).2.1
                          have hmem : target ∉ {b2 | s.follows a b2 = true} := by
                            simpa using hc5
                          rw [Set.ncard_insert_of_not_mem hmem hfin]
                          exact congrArg (· + 1) (h2 a).2.2.2
                      · rw [sndFibre_other s.follows sender target true a has,
                          update2_apply, if_neg hat, if_neg has]
                        exact h2 a
              · rw [if_pos hc4]; exact ⟨h1, h2⟩
            · rw [if_pos hc3]; exact ⟨h1, h2⟩
  | unfollowUser sender target =>
      simp only [SMOp.apply, SMOp.run, SMState.unfollowUser]
      by_cases hc : s.follows sender target = true
      · rw [if_neg (not_not_intro hc)]
        dsimp only
        by_cases hts : target = sender
        · subst hts
          rw [Function.update_same, Function.update_idem]
          refine ⟨?_, ?_⟩
          · intro x y hxy
            dsimp only at hxy ⊢
            have hold : s.follows x y = true := by
              rcases eq_or_ne x target with hx | hx
              · subst hx
                rw [Function.update_same] at hxy
                rcases eq_or_ne y x with hy | hy
                · subst hy
                  rw [Function.update_same] at hxy
                  exact absurd hxy (by decide)
                · rwa [Function.update_noteq hy] at hxy
              · rwa [Function.update_noteq hx] at hxy
            obtain ⟨hux, huy⟩ := h1 x y hold
            exact ⟨update_user_ne s.profiles target _ x
                (h1 target target hc).1 hux,
              update_user_ne s.profiles target _ y
                (h1 target target hc).1 huy⟩
          · intro a
            dsimp only [SMState.followersOf, SMState.followingOf,
              SMState.isFollowing]
            by_cases has : a = target
            · subst has
              rw [fstFibre_erase, sndFibre_erase]
              have hfinF : {b2 | s.follows b2 a = true}.Finite := (h2 a).1
              have hfinG : {b2 | s.follows a b2 = true}.Finite := (h2 a).2.1
              have hmemF : a ∈ {b2 | s.follows b2 a = true} := by
                simpa using hc
              have hmemG : a ∈ {b2 | s.follows a b2 = true} := by
                simpa using hc
              refine ⟨hfinF.diff _, hfinG.diff _, ?_, ?_⟩
              · rw [Function.update_same]
                dsimp only
                rw [Set.ncard_diff_singleton_of_mem hmemF hfinF]
                exact congrArg (· - 1) (h2 a).2.2.1
              · rw [Function.update_same]
                dsimp only
                rw [Set.ncard_diff_singleton_of_mem hmemG hfinG]
                exact congrArg (· - 1) (h2 a).2.2.2
            · rw [fstFibre_other s.follows target target false a has,
                sndFibre_other s.follows target target false a has,
                Function.update_noteq has]
              exact h2 a
        · rw [Function.update_noteq hts]
          refine ⟨?_, ?_⟩
          · intro x y hxy
            dsimp only at hxy ⊢
            have hold : s.follows x y = true := by
              rcases eq_or_ne x sender with hx | hx
              · subst hx
                rw [Function.update_same] at hxy
                rcases eq_or_ne y target with hy | hy
                · subst hy
                  rw [Function.update_same] at hxy
                  exact absurd hxy (by decide)
                · rwa [Function.update_noteq hy] at hxy
              · rwa [Function.update_noteq hx] at hxy
            obtain ⟨hux, huy⟩ := h1 x y hold
            exact ⟨update2_user_ne s.profiles sender target _ _ x
                (h1 sender target hc).1 (h1 sender target hc).2 hux,
              update2_user_ne s.profiles sender target _ _ y
                (h1 sender target hc).1 (h1 sender target hc).2 huy⟩
          · intro a
            dsimp only [SMState.followersOf, SMState.followingOf,
              SMState.isFollowing]
            by_cases hat : a = target
            · subst hat
              rw [fstFibre_erase,
                sndFibre_other s.follows sender a false a hts]
              have hfin : {b2 | s.follows b2 a = true}.Finite := (h2 a).1
              have hmem : sender ∈ {b2 | s.follows b2 a = true} := by
                simpa using hc
              refine ⟨hfin.diff _, (h2 a).2.1, ?_, ?_⟩
              · rw [update2_apply, if_pos rfl]
                dsimp only
                rw [Set.ncard_diff_singleton_of_mem hmem hfin]
                exact congrArg (· - 1) (h2 a).2.2.1
              · rw [update2_apply, if_pos rfl]
                dsimp only
                exact (h2 a).2.2.2
            · rw [fstFibre_other s.follows sender target false a hat]
              by_cases has : a = sender
              · subst has
                rw [sndFibre_erase]
                have hfin : {b2 | s.follows a b2 = true}.Finite := (h2 a).2.1
                have hmem : target ∈ {b2 | s.follows a b2 = true} := by
                  simpa using hc
                refine ⟨(h2 a).1, hfin.diff _, ?_, ?_⟩
                · rw [update2_apply, if_neg hat, if_pos rfl]
                  dsimp only
                  exact (h2 a).2.2.1
                · rw [update2_apply, if_neg hat, if_pos rfl]
                  dsimp only
                  rw [Set.ncard_diff_singleton_of_mem hmem hfin]
                  exact congrArg (· - 1) (h2 a).2.2.2
              · rw [sndFibre_other s.follows sender target false a has,
                  update2_apply, if_neg hat, if_neg has]
                exact h2 a
      · rw [if_pos hc]; exact ⟨h1, h2⟩

/-- Helper: `FollowCountInv` holds at deployment. -/
lemma followCountInv_deployed : FollowCountInv SMState.deployed := by
  constructor
  · intro a b hab
    simp [SMState.deployed] at hab
  · intro a
    have hF : SMState.deployed.followersOf a = (∅ : Set Nat) := by
      ext b
      simp [SMState.followersOf, SMState.isFollowing, SMState.deployed]
    have hG : SMState.deployed.followingOf a = (∅ : Set Nat) := by
      ext b
      simp [SMState.followingOf, SMState.isFollowing, SMState.deployed]
    rw [hF, hG]
    refine ⟨Set.finite_empty, Set.finite_empty, ?_, ?_⟩ <;>
      simp [SMState.deployed, SMProfile.zero]

/-- Helper: `FollowCountInv` holds in every reachable state. -/
lemma followCountInv_reachable (s : SMState) (h : SMReachable s) :
    FollowCountInv s := by
  induction h with
  | deployed => exact followCountInv_deployed
  | step op hs hr ih => exact followCountInv_step op _ ih

/-- C2: in every reachable state, every account with a profile has
`followerCount` equal to the number of distinct accounts following it and
`followingCount` equal to the number of distinct accounts it follows, and
one further transaction of any kind — in particular `followUser` and
`unfollowUser` — preserves both equalities (for every account). -/
theorem follow_counts_match_isFollowing (s : SMState) (h : SMReachable s) :
    (∀ a, (s.profiles a).user ≠ 0 →
      (s.profiles a).followerCount =
        Set.ncard {b | s.isFollowing b a = true} ∧
      (s.profiles a).followingCount =
        Set.ncard {b | s.isFollowing a b = true}) ∧
    (∀ (op : SMOp) (a : Nat),
      ((op.apply s).profiles a).followerCount =
        Set.ncard {b | (op.apply s).isFollowing b a = true} ∧
      ((op.apply s).profiles a).followingCount =
        Set.ncard {b | (op.apply s).isFollowing a b = true}) :=
  have hinv := followCountInv_reachable s h
  ⟨fun a _ => ⟨(hinv.2 a).2.2.1, (hinv.2 a).2.2.2⟩,
   fun op a =>
     have hinv2 := followCountInv_step op s hinv
     ⟨(hinv2.2 a).2.2.1, (hinv2.2 a).2.2.2⟩⟩

/-- C2 witness: in the reachable state where accounts 1 and 2 have profiles
and 1 follows 2, account 2 satisfies both counting laws. -/
theorem follow_counts_match_isFollowing_witness :
    SMReachable smSampleFollow ∧
    (smSampleFollow.profiles 2).user ≠ 0 ∧
    (smSampleFollow.profiles 2).followerCount =
      Set.ncard {b | smSampleFollow.isFollowing b 2 = true} ∧
    (smSampleFollow.profiles 2).followingCount =
      Set.ncard {b | smSampleFollow.isFollowing 2 b = true} :=
  have hreach : SMReachable smSampleFollow :=
    SMReachable.step (SMOp.followUser 1 2) (by decide)
      (SMReachable.step (SMOp.createProfile 2 "bob" "b" "c2") (by decide)
        (SMReachable.step (SMOp.createProfile 1 "alice" "bio" "cid1")
          (by decide) SMReachable.deployed))
  ⟨hreach, by decide,
   (follow_counts_match_isFollowing smSampleFollow hreach).1 2 (by decide)⟩
